import Mathlib

/-!
Shallow embedding of `src/electron/serial_handler.py`, a Flask application
that opens a serial port at module load and exposes a single route
`POST /open` whose handler writes the byte b'O' (0x4F) to the port and
returns the dict `{'status': 'success'}` (which Flask serialises as an
HTTP 200 response with content-type application/json).
-/

namespace SerialHandler

/-- HTTP request methods that can reach the Flask router. -/
inductive Method where
  | GET
  | POST
  | PUT
  | DELETE
deriving DecidableEq

/-- An inbound HTTP request: method, path and raw body bytes.  The handler
`open_door` in the source takes no request argument at all; the request
reaches the program only through Flask's routing layer (`handleHTTP`). -/
structure Request where
  method : Method
  path : String
  body : List Nat
deriving DecidableEq

/-- An HTTP response: status code, JSON-object body as an association list of
string fields, and content type.  Flask turns a handler returning a dict into
an HTTP 200 response whose body is the dict serialised as JSON with
content-type application/json. -/
structure Response where
  statusCode : Nat
  body : List (String × String)
  contentType : String
deriving DecidableEq

/-- The state of the pyserial handle `ser`: the device path and baud rate it
was constructed with (`serial.Serial('COM3', 9600)`), whether the handle is
open, whether the physical device currently accepts writes (`good := false`
models a device disconnected mid-operation, where `ser.write` raises), and
the trace of bytes written so far. -/
structure SerialPort where
  device : String
  baud : Nat
  isOpen : Bool
  good : Bool
  written : List Nat
deriving DecidableEq

/-- The exception pyserial raises when a write to the device fails. -/
inductive SerialError where
  | writeFailed
deriving DecidableEq

/-- `ser.write(bs)`: appends the bytes to the device trace when the device
accepts the write, and raises (propagated as `Except.error`) otherwise. -/
def SerialPort.write (st : SerialPort) (bs : List Nat) :
    Except SerialError SerialPort :=
  if st.good then Except.ok { st with written := st.written ++ bs }
  else Except.error SerialError.writeFailed

/-- The JSON object `{'status': 'success'}` returned by the handler. -/
def successBody : List (String × String) := [("status", "success")]

/-- The response Flask produces from the handler's returned dict:
HTTP 200, JSON body `successBody`, content-type application/json. -/
def successResponse : Response :=
  { statusCode := 200, body := successBody, contentType := "application/json" }

/-- The handler registered on the route:

    def open_door():
        ser.write(b'O')
        return {'status': 'success'}

It writes the single byte 0x4F through the handle and returns the success
dict; it contains no try/except, so a write exception propagates out. -/
def open_door (st : SerialPort) : Except SerialError (SerialPort × Response) := do
  let st' ← st.write [0x4F]
  return (st', successResponse)

/-- Flask's default 405 Method Not Allowed response, produced by the router
when the path matches a rule but the method is not among the registered ones. -/
def methodNotAllowed : Response :=
  { statusCode := 405, body := [], contentType := "text/html" }

/-- Flask's default 404 Not Found response for an unregistered path. -/
def notFound : Response :=
  { statusCode := 404, body := [], contentType := "text/html" }

/-- Flask's routing of an inbound request over the app's single rule
`@app.route('/open', methods=['POST'])`: the handler runs only for a POST
to /open; any other method on /open gets 405 and any other path gets 404,
in both cases without touching the serial handle. -/
def handleHTTP (req : Request) (st : SerialPort) :
    Except SerialError (SerialPort × Response) :=
  if req.path = "/open" then
    if req.method = Method.POST then open_door st
    else Except.ok (st, methodNotAllowed)
  else Except.ok (st, notFound)

/-- Events performed by the top level of the script, in execution order. -/
inductive Event where
  | openSerial (device : String) (baud : Nat)
  | serveHTTP (port : Nat)
deriving DecidableEq

/-- Execution order of the module's top-level statements when run as a
script: `ser = serial.Serial('COM3', 9600)` executes at line 5, before
`app.run(port=3000)` at line 13. -/
def startupEvents : List Event :=
  [Event.openSerial "COM3" 9600, Event.serveHTTP 3000]

/-- The exception the `serial.Serial` constructor raises when the device
cannot be opened (absent, busy, or permission denied). -/
inductive StartError where
  | openFailed
deriving DecidableEq

/-- `serial.Serial('COM3', 9600)`: opens the device and yields a fresh open
handle with an empty write trace, or raises when the device cannot be
opened (`deviceOk = false`). -/
def openSerial (device : String) (baud : Nat) (deviceOk : Bool) :
    Except StartError SerialPort :=
  if deviceOk then
    Except.ok { device := device, baud := baud, isOpen := true,
                good := true, written := [] }
  else Except.error StartError.openFailed

/-- The handle produced by a successful `serial.Serial('COM3', 9600)`. -/
def openedPort : SerialPort :=
  { device := "COM3", baud := 9600, isOpen := true, good := true, written := [] }

/-- A process that reached `app.run`: the open handle plus the HTTP port. -/
structure RunningProcess where
  port : SerialPort
  httpPort : Nat
deriving DecidableEq

/-- The script's top level: open the serial port, then start serving on
TCP port 3000.  There is no try/except anywhere, so a failed open
propagates and the process never starts serving. -/
def startProcess (deviceOk : Bool) : Except StartError RunningProcess := do
  let ser ← openSerial "COM3" 9600 deviceOk
  return { port := ser, httpPort := 3000 }

/-- Sequential invocation of the handler n times, threading the serial
state and collecting the responses; any exception aborts the run. -/
def invokeN : Nat → SerialPort → Except SerialError (SerialPort × List Response)
  | 0, st => Except.ok (st, [])
  | n + 1, st => do
      let (st', r) ← open_door st
      let (st'', rs) ← invokeN n st'
      return (st'', r :: rs)

/-- A handle whose device no longer accepts writes (disconnected). -/
def badPort : SerialPort :=
  { device := "COM3", baud := 9600, isOpen := true, good := false, written := [] }

/- Helper lemmas shared by the claim theorems. -/

/-- On a device that accepts the write, the handler appends exactly the
byte 0x4F and returns the success response. -/
theorem open_door_eq_of_good (st : SerialPort) (h : st.good = true) :
    open_door st =
      Except.ok ({ st with written := st.written ++ [0x4F] }, successResponse) := by
  simp [open_door, SerialPort.write, h]

/-- On a device that rejects the write, the exception propagates. -/
theorem open_door_eq_of_bad (st : SerialPort) (h : st.good = false) :
    open_door st = Except.error SerialError.writeFailed := by
  simp [open_door, SerialPort.write, h]

/- Claim theorems. -/

/-- C1: for every invocation of POST /open while the serial handle is open
and the write succeeds, the handler returns HTTP 200 with exactly the JSON
body `successBody` (i.e. status: success) and content-type application/json. -/
theorem open_success_response (st : SerialPort)
    (_hopen : st.isOpen = true) (hgood : st.good = true) :
    handleHTTP { method := Method.POST, path := "/open", body := [] } st =
      Except.ok ({ st with written := st.written ++ [0x4F] }, successResponse) ∧
    successResponse.statusCode = 200 ∧
    successResponse.body = [("status", "success")] ∧
    successResponse.contentType = "application/json" := by
  refine ⟨?_, rfl, rfl, rfl⟩
  simp [handleHTTP, open_door_eq_of_good st hgood]

/-- Witness for C1 at the concrete freshly opened handle. -/
theorem open_success_response_witness :
    openedPort.isOpen = true ∧ openedPort.good = true ∧
    handleHTTP { method := Method.POST, path := "/open", body := [] } openedPort =
      Except.ok ({ openedPort with written := openedPort.written ++ [0x4F] },
        successResponse) :=
  ⟨rfl, rfl, (open_success_response openedPort rfl rfl).1⟩

/-- C2: an invocation of the handler that completes writes exactly one byte,
the literal 0x4F, to the device — the trace grows by precisely [0x4F] and
nothing else. -/
theorem open_writes_single_byte (st st' : SerialPort) (r : Response)
    (h : open_door st = Except.ok (st', r)) :
    st'.written = st.written ++ [0x4F] := by
  by_cases hg : st.good = true
  · rw [open_door_eq_of_good st hg] at h
    injection h with h
    injection h with h1 h2
    rw [← h1]
  · rw [open_door_eq_of_bad st (by simpa using hg)] at h
    exact absurd h (by simp)

/-- Witness for C2 at the concrete freshly opened handle. -/
theorem open_writes_single_byte_witness :
    ({ openedPort with written := openedPort.written ++ [0x4F] } :
        SerialPort).written = openedPort.written ++ [0x4F] :=
  open_writes_single_byte openedPort _ successResponse
    (open_door_eq_of_good openedPort rfl)

/-- C3: invoking the handler N times in sequence on a working device writes
exactly N copies of the byte 0x4F and returns N identical success responses;
nothing else about the handle's state changes, so no state accumulates
between calls. -/
theorem openN_writes_n_bytes (n : Nat) :
    ∀ st : SerialPort, st.good = true →
      invokeN n st =
        Except.ok ({ st with written := st.written ++ List.replicate n 0x4F },
          List.replicate n successResponse) := by
  induction n with
  | zero => intro st h; simp [invokeN]
  | succ n ih =>
      intro st h
      have h1 : (({ st with written := st.written ++ [0x4F] } : SerialPort)).good
          = true := h
      simp [invokeN, open_door_eq_of_good st h, ih _ h1, Bind.bind, Except.bind,
        Functor.map, Except.map, Pure.pure, Except.pure,
        List.replicate_succ, List.append_assoc]

/-- Witness for C3. -/
theorem openN_writes_n_bytes_witness :
    invokeN 3 openedPort =
      Except.ok ({ openedPort with
          written := openedPort.written ++ List.replicate 3 0x4F },
        List.replicate 3 successResponse) :=
  openN_writes_n_bytes 3 openedPort rfl

/-- C4 counterexample: at the concrete disconnected handle `badPort` the
write fails, the handler raises instead of returning, and no response —
in particular no success body — is produced, refuting the claim that the
body is the fixed success mapping regardless of outcome. -/
theorem response_not_fixed_on_write_failure :
    open_door badPort = Except.error SerialError.writeFailed ∧
    (open_door badPort).toOption = none :=
  ⟨rfl, rfl⟩

/-- C4 amended: whenever an invocation of the handler returns at all, its
response is the fixed success mapping with HTTP 200; when the write fails
no response is produced by the handler (the exception propagates). -/
theorem success_body_only_when_write_ok (st st' : SerialPort) (r : Response)
    (h : open_door st = Except.ok (st', r)) :
    r = successResponse ∧ r.body = successBody ∧ r.statusCode = 200 := by
  by_cases hg : st.good = true
  · rw [open_door_eq_of_good st hg] at h
    injection h with h
    injection h with h1 h2
    exact ⟨h2.symm, by rw [← h2]; rfl, by rw [← h2]; rfl⟩
  · rw [open_door_eq_of_bad st (by simpa using hg)] at h
    exact absurd h (by simp)

/-- Witness for the amended C4 at the concrete freshly opened handle. -/
theorem success_body_only_when_write_ok_witness :
    successResponse = successResponse ∧ successResponse.body = successBody :=
  let h := success_body_only_when_write_ok openedPort
    { openedPort with written := openedPort.written ++ [0x4F] } successResponse
    (open_door_eq_of_good openedPort rfl)
  ⟨h.1, h.2.1⟩

/-- C5: in the script's top-level execution order the serial open happens
strictly before the HTTP server starts accepting requests, the open is
performed exactly once, and a successful start yields a process holding
the open handle. -/
theorem serial_opened_before_serving :
    startupEvents.indexOf (Event.openSerial "COM3" 9600) <
      startupEvents.indexOf (Event.serveHTTP 3000) ∧
    startupEvents.count (Event.openSerial "COM3" 9600) = 1 ∧
    startProcess true = Except.ok { port := openedPort, httpPort := 3000 } ∧
    openedPort.isOpen = true :=
  ⟨by decide, by decide, rfl, rfl⟩

/-- C6: when the device cannot be opened at startup, the top level raises
and the process never reaches the serving state. -/
theorem startup_fails_on_open_failure :
    startProcess false = Except.error StartError.openFailed ∧
    (startProcess false).toOption = none :=
  ⟨rfl, rfl⟩

/-- C7: when the serial write raises during a request, the handler (which
has no try/except) propagates the exception and never returns the success
response, or indeed any response. -/
theorem write_exception_propagates (st : SerialPort) (h : st.good = false) :
    open_door st = Except.error SerialError.writeFailed ∧
    ∀ p : SerialPort × Response, open_door st ≠ Except.ok p := by
  refine ⟨open_door_eq_of_bad st h, ?_⟩
  intro p hp
  rw [open_door_eq_of_bad st h] at hp
  exact Except.noConfusion hp

/-- Witness for C7 at the concrete disconnected handle. -/
theorem write_exception_propagates_witness :
    badPort.good = false ∧
    open_door badPort = Except.error SerialError.writeFailed :=
  ⟨rfl, (write_exception_propagates badPort rfl).1⟩

/-- C8: the handler's behaviour is independent of the request content: two
POST /open requests with arbitrary distinct bodies produce identical device
writes and identical responses from the same starting state. -/
theorem handler_ignores_request_body (b1 b2 : List Nat) (st : SerialPort) :
    handleHTTP { method := Method.POST, path := "/open", body := b1 } st =
      handleHTTP { method := Method.POST, path := "/open", body := b2 } st :=
  rfl

/-- C9: the startup sequence opens exactly one handle, and a completing
invocation of the handler neither opens, closes, nor replaces it: the
handle's open flag, device path and baud rate are all preserved. -/
theorem single_handle_invariant (st st' : SerialPort) (r : Response)
    (h : open_door st = Except.ok (st', r)) :
    startupEvents.count (Event.openSerial "COM3" 9600) = 1 ∧
    st'.isOpen = st.isOpen ∧ st'.device = st.device ∧ st'.baud = st.baud := by
  refine ⟨by decide, ?_⟩
  by_cases hg : st.good = true
  · rw [open_door_eq_of_good st hg] at h
    injection h with h
    injection h with h1 h2
    rw [← h1]
    exact ⟨rfl, rfl, rfl⟩
  · rw [open_door_eq_of_bad st (by simpa using hg)] at h
    exact absurd h (by simp)

/-- Witness for C9 at the concrete freshly opened handle. -/
theorem single_handle_invariant_witness :
    startupEvents.count (Event.openSerial "COM3" 9600) = 1 ∧
    ({ openedPort with written := openedPort.written ++ [0x4F] } :
        SerialPort).isOpen = openedPort.isOpen :=
  let h := single_handle_invariant openedPort
    { openedPort with written := openedPort.written ++ [0x4F] } successResponse
    (open_door_eq_of_good openedPort rfl)
  ⟨h.1, h.2.1⟩

/-- C10: /open is registered for POST only; a request to /open with any
other method is answered 405 by the router with the serial state unchanged,
so the handler does not run and no byte is written to the device. -/
theorem non_post_rejected (m : Method) (b : List Nat) (st : SerialPort)
    (h : m ≠ Method.POST) :
    handleHTTP { method := m, path := "/open", body := b } st =
      Except.ok (st, methodNotAllowed) := by
  simp [handleHTTP, h]

/-- Witness for C10: a GET to /open on the freshly opened handle. -/
theorem non_post_rejected_witness :
    handleHTTP { method := Method.GET, path := "/open", body := [] } openedPort =
      Except.ok (openedPort, methodNotAllowed) :=
  non_post_rejected Method.GET [] openedPort (by decide)

end SerialHandler
